import Mathlib

/-
Verification development for the retro chat server (src/server.rs).

The server is a tokio TCP broadcast chat: main binds a listener, creates one
broadcast channel of capacity 100, and spawns handle_connection per accepted
socket.  handle_connection reads one username line, publishes a joined-the-chat
notification, then loops with select! over an inbound read_line and the bus
receiver, finally publishing a left-the-chat notification after an inbound EOF.

The embedding below renders that code as pure Lean functions:
  - ChatMessage / MessageType mirror the serde structs;
  - ChatMessage.toJson mirrors serde_json::to_string for these derived types;
  - Bus mirrors a tokio broadcast channel: a grow-only log of published
    payloads plus one read position per live receiver, with capacity 100 and
    the lagged-receiver semantics of tokio (a receiver whose position has
    fallen more than capacity behind the log head gets a Lagged error and is
    repositioned to the oldest retained message);
  - Conn is the state of one handle_connection task: username, the shared bus,
    the index of this task receiver, the remaining inbound chunks that
    read_line will return (an empty chunk or exhausted list models a zero-byte
    read, i.e. EOF), a fault-injection list for the write_all calls (an
    exhausted list means writes succeed), the bytes written to the socket, the
    envelopes this session has successfully published (bookkeeping kept in
    lockstep with the bus log), and a phase;
  - every .unwrap() in the Rust is modelled by Phase.panicked with the reason.
Wall-clock timestamps (Local::now) enter as explicit string parameters on the
events that construct envelopes.
-/

namespace RetroChat

/-- Capacity handed to broadcast::channel in main (src/server.rs line 44). -/
def busCapacity : Nat := 100

/-- The message_type field of a chat message (src/server.rs lines 23-27). -/
inductive MessageType
  | UserMessage
  | SystemNotification
deriving DecidableEq, Repr

/-- The ChatMessage struct (src/server.rs lines 14-20), field for field. -/
structure ChatMessage where
  username : String
  content : String
  timestamp : String
  message_type : MessageType
deriving DecidableEq, Repr

/-- Lowercase hexadecimal digit, as serde_json emits in escapes. -/
def hexDigit (n : Nat) : Char :=
  if n < 10 then Char.ofNat (48 + n) else Char.ofNat (87 + n)

/-- Escaping of one character inside a JSON string, following serde_json:
quote and backslash get a backslash, the named control escapes are used where
they exist, any other control character becomes a four-digit unicode escape. -/
def escapeChar (c : Char) : String :=
  if c = '"' then "\\\""
  else if c = '\\' then "\\\\"
  else if c = '\n' then "\\n"
  else if c = '\r' then "\\r"
  else if c = '\t' then "\\t"
  else if c.toNat = 8 then "\\b"
  else if c.toNat = 12 then "\\f"
  else if c.toNat < 32 then
    "\\u00" ++ String.mk [hexDigit (c.toNat / 16), hexDigit (c.toNat % 16)]
  else String.mk [c]

/-- Escape a whole string for embedding in JSON. -/
def jsonEscape (s : String) : String :=
  String.join (s.data.map escapeChar)

/-- A JSON string literal with quotes. -/
def jsonString (s : String) : String :=
  "\"" ++ jsonEscape s ++ "\""

/-- Serde serialization of the unit enum variants of MessageType. -/
def MessageType.toJson : MessageType → String
  | MessageType.UserMessage => "\"UserMessage\""
  | MessageType.SystemNotification => "\"SystemNotification\""

/-- Model of serde_json::to_string on ChatMessage: an object with the four
fields in declaration order. -/
def ChatMessage.toJson (m : ChatMessage) : String :=
  "\x7b\"username\":" ++ jsonString m.username ++
  ",\"content\":" ++ jsonString m.content ++
  ",\"timestamp\":" ++ jsonString m.timestamp ++
  ",\"message_type\":" ++ m.message_type.toJson ++ "\x7d"

/-- Unicode White_Space test, as used by str::trim in Rust. -/
def rustIsWhitespace (c : Char) : Bool :=
  let n := c.toNat
  n = 0x20 || (0x9 ≤ n && n ≤ 0xd) || n = 0x85 || n = 0xa0 || n = 0x1680 ||
  (0x2000 ≤ n && n ≤ 0x200a) || n = 0x2028 || n = 0x2029 || n = 0x202f ||
  n = 0x205f || n = 0x3000

/-- Model of str::trim: drop whitespace from both ends. -/
def rustTrim (s : String) : String :=
  String.mk (((s.data.dropWhile rustIsWhitespace).reverse.dropWhile
    rustIsWhitespace).reverse)

/-- A tokio broadcast channel: the grow-only log of every payload accepted by
send, and the read position into that log of each live receiver. -/
structure Bus where
  log : List String
  rxPos : List Nat
deriving DecidableEq, Repr

/-- Model of broadcast::Sender::send: with no receiver the message is refused
and the error returned (first component false); otherwise the payload joins
the log for every receiver to read. -/
def Bus.send (b : Bus) (payload : String) : Bool × Bus :=
  if b.rxPos.length = 0 then (false, b)
  else (true, Bus.mk (b.log ++ [payload]) b.rxPos)

/-- Model of broadcast::Sender::subscribe: a fresh receiver starting at the
current log head; returns the new bus and the receiver index. -/
def Bus.subscribe (b : Bus) : Bus × Nat :=
  (Bus.mk b.log (b.rxPos ++ [b.log.length]), b.rxPos.length)

/-- Outcome of one broadcast::Receiver::recv call. -/
inductive RecvOutcome
  | ok (msg : String)
  | lagged (missed : Nat)
  | pending
deriving DecidableEq, Repr

/-- Model of broadcast::Receiver::recv for receiver i: pending when the
receiver has read everything (recv would suspend, so the select branch is not
ready); Lagged with the number of missed messages when the position has fallen
more than busCapacity behind, repositioning to the oldest retained message;
otherwise the next message, advancing the position. -/
def Bus.recvAt (b : Bus) (i : Nat) : RecvOutcome × Bus :=
  let p := b.rxPos.getD i 0
  if b.log.length ≤ p then (RecvOutcome.pending, b)
  else if busCapacity < b.log.length - p then
    (RecvOutcome.lagged (b.log.length - busCapacity - p),
      Bus.mk b.log (b.rxPos.set i (b.log.length - busCapacity)))
  else
    (RecvOutcome.ok (b.log.getD p ""), Bus.mk b.log (b.rxPos.set i (p + 1)))

/-- Which .unwrap() fired: tx.send (no receivers), rx.recv (Lagged), or
writer.write_all (socket write failure). -/
inductive PanicReason
  | sendErr
  | recvLag
  | writeErr
deriving DecidableEq, Repr

/-- Phase of one handle_connection task: still in the select loop, returned
normally after publishing the leave notification, or panicked on an unwrap. -/
inductive Phase
  | active
  | done
  | panicked (r : PanicReason)
deriving DecidableEq, Repr

/-- State of one handle_connection task (src/server.rs lines 66-131). -/
structure Conn where
  username : String
  bus : Bus
  rxId : Nat
  input : List String
  writes : List Bool
  output : String
  published : List ChatMessage
  phase : Phase
deriving DecidableEq, Repr

/-- Model of tx.send(serde_json::to_string(m)).unwrap() inside the session:
on success the encoded envelope joins the bus log and the envelope is recorded
as published; on the no-receivers error the unwrap panics the task. -/
def Conn.publish (c : Conn) (m : ChatMessage) : Conn :=
  let r := Bus.send c.bus (ChatMessage.toJson m)
  if r.fst then
    { c with bus := r.snd, published := c.published ++ [m] }
  else
    { c with phase := Phase.panicked PanicReason.sendErr }

/-- Pop the outcome of the next write_all call from the fault-injection list;
an exhausted list means the write succeeds. -/
def Conn.popWrite (c : Conn) : Bool × Conn :=
  match c.writes with
  | [] => (true, c)
  | w :: ws => (w, { c with writes := ws })

/-- The engraving of "left the chat" (src/server.rs line 122). -/
def leaveContent : String := "left the chat"

/-- The engraving of "joined the chat" (src/server.rs line 83). -/
def joinContent : String := "joined the chat"

/-- The join notification envelope (src/server.rs lines 81-86). -/
def joinMsg (name ts : String) : ChatMessage :=
  ChatMessage.mk name joinContent ts MessageType.SystemNotification

/-- The leave notification envelope (src/server.rs lines 120-125). -/
def leaveMsg (name ts : String) : ChatMessage :=
  ChatMessage.mk name leaveContent ts MessageType.SystemNotification

/-- Breaking out of the select loop on a zero-byte read: publish the leave
notification (src/server.rs lines 120-127) and return from the task. -/
def closeConn (c : Conn) (ts : String) : Conn :=
  let c2 := Conn.publish c (leaveMsg c.username ts)
  match c2.phase with
  | Phase.active => { c2 with phase := Phase.done }
  | _ => c2

/-- The rx.recv() select branch (src/server.rs lines 111-115): unwrap the
outcome (Lagged panics the task), then write the payload and a newline with
two unwrapped write_all calls. -/
def deliver (c : Conn) : Conn :=
  let r := Bus.recvAt c.bus c.rxId
  match r.fst with
  | RecvOutcome.pending => c
  | RecvOutcome.lagged _ =>
      { c with bus := r.snd, phase := Phase.panicked PanicReason.recvLag }
  | RecvOutcome.ok msg =>
      let w1 := Conn.popWrite { c with bus := r.snd }
      if w1.fst then
        let c2 := { w1.snd with output := w1.snd.output ++ msg }
        let w2 := Conn.popWrite c2
        if w2.fst then { w2.snd with output := w2.snd.output ++ "\n" }
        else { w2.snd with phase := Phase.panicked PanicReason.writeErr }
      else { w1.snd with phase := Phase.panicked PanicReason.writeErr }

/-- One select event: either the read_line branch fired (carrying the wall
clock reading used if an envelope is constructed) or the recv branch fired. -/
inductive SelEvent
  | inbound (ts : String)
  | outbound
deriving DecidableEq, Repr

/-- One iteration of the select loop (src/server.rs lines 92-117).  The
inbound branch with an exhausted or empty chunk is read_line returning 0:
break, then the leave sequence.  A nonempty chunk becomes a UserMessage with
the trimmed line as content.  A finished or panicked task takes no steps. -/
def step (c : Conn) (e : SelEvent) : Conn :=
  match c.phase with
  | Phase.active =>
    match e with
    | SelEvent.inbound ts =>
      match c.input with
      | [] => closeConn c ts
      | chunk :: rest =>
        if chunk.isEmpty then closeConn c ts
        else
          Conn.publish { c with input := rest }
            (ChatMessage.mk c.username (rustTrim chunk) ts
              MessageType.UserMessage)
    | SelEvent.outbound => deliver c
  | _ => c

/-- The straight-line head of handle_connection (src/server.rs lines 66-88):
read the username line, trim it, publish the joined-the-chat notification. -/
def initConn (bus0 : Bus) (rxId : Nat) (input : List String)
    (writes : List Bool) (tsJoin : String) : Conn :=
  let name := rustTrim (input.headD "")
  Conn.publish
    (Conn.mk name bus0 rxId input.tail writes "" [] Phase.active)
    (joinMsg name tsJoin)

/-- A whole run of handle_connection: the handshake and join notification,
then the select loop driven by a schedule of ready branches. -/
def handle_connection (bus0 : Bus) (rxId : Nat) (input : List String)
    (writes : List Bool) (tsJoin : String) (sched : List SelEvent) : Conn :=
  sched.foldl step (initConn bus0 rxId input writes tsJoin)

/-- One observation of the accept loop in main: either accept returned a
socket, or it returned an error.  The flag records whether that error is
fatal to the listening socket itself; the code never inspects it. -/
inductive AcceptEvent
  | conn
  | err (fatalToListener : Bool)
deriving DecidableEq, Repr

/-- State of main around the accept loop (src/server.rs lines 42-63): the one
broadcast channel, the receiver index handed to each spawned session in accept
order, a count of channel creations, and whether the loop has ended. -/
structure ListenerState where
  bus : Bus
  spawned : List Nat
  busesCreated : Nat
  terminated : Bool
deriving DecidableEq, Repr

/-- State after line 44 of main: one fresh channel, no sessions yet. -/
def listenerInit : ListenerState :=
  ListenerState.mk (Bus.mk [] []) [] 1 false

/-- One accept iteration (src/server.rs lines 47-62): on Ok, subscribe a
receiver on the shared channel and spawn a session with it; on Err, the
question-mark operator returns the error from main, ending the loop.  A
terminated loop runs no further iterations. -/
def listenerStep (s : ListenerState) (e : AcceptEvent) : ListenerState :=
  if s.terminated then s
  else
    match e with
    | AcceptEvent.err _ => { s with terminated := true }
    | AcceptEvent.conn =>
        let r := Bus.subscribe s.bus
        { s with bus := r.fst, spawned := s.spawned ++ [r.snd] }

/-- The accept loop of main over a sequence of accept outcomes. -/
def runListener (es : List AcceptEvent) : ListenerState :=
  es.foldl listenerStep listenerInit

/-- An envelope counts as a join notification when it carries the system tag
and the joined-the-chat body. -/
def isJoin (m : ChatMessage) : Bool :=
  match m.message_type with
  | MessageType.SystemNotification => m.content == joinContent
  | MessageType.UserMessage => false

/-- An envelope counts as a leave notification when it carries the system tag
and the left-the-chat body. -/
def isLeave (m : ChatMessage) : Bool :=
  match m.message_type with
  | MessageType.SystemNotification => m.content == leaveContent
  | MessageType.UserMessage => false

theorem publish_pos (c : Conn) (m : ChatMessage) (h : c.bus.rxPos.length ≠ 0) :
    Conn.publish c m =
      { c with bus := Bus.mk (c.bus.log ++ [ChatMessage.toJson m]) c.bus.rxPos,
               published := c.published ++ [m] } := by
  simp [Conn.publish, Bus.send, h]

theorem publish_zero (c : Conn) (m : ChatMessage) (h : c.bus.rxPos.length = 0) :
    Conn.publish c m = { c with phase := Phase.panicked PanicReason.sendErr } := by
  simp [Conn.publish, Bus.send, h]

theorem publish_username (c : Conn) (m : ChatMessage) :
    (Conn.publish c m).username = c.username := by
  by_cases h : c.bus.rxPos.length = 0
  · simp [publish_zero c m h]
  · simp [publish_pos c m h]

theorem publish_rxPos (c : Conn) (m : ChatMessage) :
    (Conn.publish c m).bus.rxPos = c.bus.rxPos := by
  by_cases h : c.bus.rxPos.length = 0
  · simp [publish_zero c m h]
  · simp [publish_pos c m h]

theorem popWrite_eq (c : Conn) :
    Conn.popWrite c = (c.writes.headD true, { c with writes := c.writes.tail }) := by
  cases c with
  | mk u b r i w o p ph => cases w <;> rfl

theorem recvAt_rxLen (b : Bus) (i : Nat) :
    ((Bus.recvAt b i).snd).rxPos.length = b.rxPos.length := by
  unfold Bus.recvAt
  dsimp only
  split
  · rfl
  · split <;> simp [List.length_set]

theorem closeConn_username (c : Conn) (ts : String) :
    (closeConn c ts).username = c.username := by
  unfold closeConn
  dsimp only
  split <;> simp [publish_username]

theorem deliver_effects (c : Conn) :
    (deliver c).username = c.username ∧
    (deliver c).published = c.published ∧
    (deliver c).bus.rxPos.length = c.bus.rxPos.length ∧
    ((deliver c).phase = c.phase ∨
      (deliver c).phase = Phase.panicked PanicReason.recvLag ∨
      (deliver c).phase = Phase.panicked PanicReason.writeErr) := by
  unfold deliver
  rcases hr : (Bus.recvAt c.bus c.rxId).fst with msg | n
  · have hl : ((Bus.recvAt c.bus c.rxId).snd).rxPos.length = c.bus.rxPos.length :=
      recvAt_rxLen c.bus c.rxId
    simp only [hr, popWrite_eq]
    split
    · split <;> simp [hl]
    · simp [hl]
  · simp [hr, recvAt_rxLen c.bus c.rxId]
  · simp [hr]

theorem step_stuck (c : Conn) (e : SelEvent) (h : c.phase ≠ Phase.active) :
    step c e = c := by
  unfold step
  cases hph : c.phase
  · exact absurd hph h
  · rfl
  · rfl

theorem closeConn_pos (c : Conn) (ts : String) (h : c.bus.rxPos.length ≠ 0)
    (hph : c.phase = Phase.active) :
    closeConn c ts =
      { c with
          bus := Bus.mk (c.bus.log ++ [ChatMessage.toJson (leaveMsg c.username ts)])
                   c.bus.rxPos,
          published := c.published ++ [leaveMsg c.username ts],
          phase := Phase.done } := by
  unfold closeConn
  dsimp only
  rw [publish_pos c _ h]
  simp [hph]

theorem closeConn_zero (c : Conn) (ts : String) (h : c.bus.rxPos.length = 0) :
    closeConn c ts = { c with phase := Phase.panicked PanicReason.sendErr } := by
  unfold closeConn
  dsimp only
  rw [publish_zero c _ h]

theorem step_username (c : Conn) (e : SelEvent) :
    (step c e).username = c.username := by
  unfold step
  cases hph : c.phase
  · cases e with
    | inbound ts =>
        cases c.input with
        | nil => exact closeConn_username c ts
        | cons chunk rest =>
            by_cases he : chunk.isEmpty
            · simp [he, closeConn_username]
            · simp [he, publish_username]
    | outbound => exact (deliver_effects c).1
  · rfl
  · rfl

theorem step_rxLen (c : Conn) (e : SelEvent) :
    (step c e).bus.rxPos.length = c.bus.rxPos.length := by
  unfold step
  cases hph : c.phase
  · cases e with
    | inbound ts =>
        have hclose : ∀ c2 : Conn, ∀ t : String,
            (closeConn c2 t).bus.rxPos.length = c2.bus.rxPos.length := by
          intro c2 t
          unfold closeConn
          dsimp only
          split <;> simp [publish_rxPos]
        cases c.input with
        | nil => exact hclose c ts
        | cons chunk rest =>
            by_cases he : chunk.isEmpty
            · simp [he, hclose]
            · simp [he, publish_rxPos]
    | outbound => exact (deliver_effects c).2.2.1
  · rfl
  · rfl

theorem step_shape (c : Conn) (e : SelEvent) (hph : c.phase = Phase.active) :
    ((step c e).phase = Phase.active ∧
       ((step c e).published = c.published ∨
        ∃ ch ts, (step c e).published
          = c.published
            ++ [ChatMessage.mk c.username (rustTrim ch) ts MessageType.UserMessage]))
  ∨ ((step c e).phase = Phase.done ∧
       ∃ ts, (step c e).published = c.published ++ [leaveMsg c.username ts])
  ∨ ((step c e).phase = Phase.panicked PanicReason.sendErr ∧
       (step c e).published = c.published ∧ c.bus.rxPos.length = 0)
  ∨ (((step c e).phase = Phase.panicked PanicReason.recvLag ∨
        (step c e).phase = Phase.panicked PanicReason.writeErr) ∧
       (step c e).published = c.published) := by
  unfold step
  rw [hph]
  cases e with
  | inbound ts =>
      have hclose : ∀ t : String,
          ((closeConn c t).phase = Phase.done ∧
             ∃ ts2, (closeConn c t).published = c.published ++ [leaveMsg c.username ts2])
          ∨ ((closeConn c t).phase = Phase.panicked PanicReason.sendErr ∧
             (closeConn c t).published = c.published ∧ c.bus.rxPos.length = 0) := by
        intro t
        by_cases h : c.bus.rxPos.length = 0
        · right
          rw [closeConn_zero c t h]
          exact ⟨rfl, rfl, h⟩
        · left
          rw [closeConn_pos c t h hph]
          exact ⟨rfl, t, rfl⟩
      cases c.input with
      | nil =>
          rcases hclose ts with h1 | h1
          · exact Or.inr (Or.inl h1)
          · exact Or.inr (Or.inr (Or.inl h1))
      | cons chunk rest =>
          dsimp only
          by_cases he : chunk.isEmpty
          · rw [if_pos he]
            rcases hclose ts with h1 | h1
            · exact Or.inr (Or.inl h1)
            · exact Or.inr (Or.inr (Or.inl h1))
          · rw [if_neg he]
            by_cases h : c.bus.rxPos.length = 0
            · refine Or.inr (Or.inr (Or.inl ?_))
              rw [publish_zero { c with input := rest, phase := Phase.active }
                (ChatMessage.mk c.username (rustTrim chunk) ts
                  MessageType.UserMessage) h]
              exact ⟨rfl, rfl, h⟩
            · refine Or.inl ?_
              rw [publish_pos { c with input := rest, phase := Phase.active }
                (ChatMessage.mk c.username (rustTrim chunk) ts
                  MessageType.UserMessage) h]
              exact ⟨rfl, Or.inr ⟨chunk, ts, rfl⟩⟩
  | outbound =>
      rcases (deliver_effects c).2.2.2 with h1 | h1 | h1
      · exact Or.inl ⟨h1.trans hph, Or.inl (deliver_effects c).2.1⟩
      · exact Or.inr (Or.inr (Or.inr ⟨Or.inl h1, (deliver_effects c).2.1⟩))
      · exact Or.inr (Or.inr (Or.inr ⟨Or.inr h1, (deliver_effects c).2.1⟩))

theorem foldl_inv {P : Conn → Prop} (hstep : ∀ c e, P c → P (step c e)) :
    ∀ (sched : List SelEvent) (c : Conn), P c → P (sched.foldl step c) := by
  intro sched
  induction sched with
  | nil => intro c h; exact h
  | cons e es ih => intro c h; exact ih _ (hstep c e h)

theorem isJoin_user (u ch ts : String) :
    isJoin (ChatMessage.mk u ch ts MessageType.UserMessage) = false := rfl

theorem isLeave_user (u ch ts : String) :
    isLeave (ChatMessage.mk u ch ts MessageType.UserMessage) = false := rfl

theorem isJoin_leaveMsg (u ts : String) : isJoin (leaveMsg u ts) = false := by rfl

theorem isLeave_joinMsg (u ts : String) : isLeave (joinMsg u ts) = false := by rfl

/-- The combined session invariant: starting handle_connection on a bus that
holds at least one receiver (in main, at least the receiver of this very
session), the session keeps its username equal to the trimmed first input
line, never changes the number of bus receivers, never hits the no-receivers
send error, its published trace starts with the one join notification and
contains no other, holds no leave notification while still active, and on a
normal return its published trace ends with exactly one leave notification
carrying the stored identity. -/
theorem run_inv (bus0 : Bus) (rxId : Nat) (input : List String)
    (writes : List Bool) (tsJoin : String) (sched : List SelEvent)
    (h : 0 < bus0.rxPos.length) :
    (handle_connection bus0 rxId input writes tsJoin sched).username
        = rustTrim (input.headD "") ∧
    (handle_connection bus0 rxId input writes tsJoin sched).bus.rxPos.length
        = bus0.rxPos.length ∧
    (handle_connection bus0 rxId input writes tsJoin sched).phase
        ≠ Phase.panicked PanicReason.sendErr ∧
    (∃ rest,
      (handle_connection bus0 rxId input writes tsJoin sched).published
          = joinMsg (rustTrim (input.headD "")) tsJoin :: rest ∧
      ∀ m ∈ rest, isJoin m = false) ∧
    ((handle_connection bus0 rxId input writes tsJoin sched).phase = Phase.active →
      ∀ m ∈ (handle_connection bus0 rxId input writes tsJoin sched).published,
        isLeave m = false) ∧
    ((handle_connection bus0 rxId input writes tsJoin sched).phase = Phase.done →
      ∃ front ts,
        (handle_connection bus0 rxId input writes tsJoin sched).published
            = front ++ [leaveMsg (rustTrim (input.headD "")) ts] ∧
        ∀ m ∈ front, isLeave m = false) := by
  have hstep : ∀ c e,
      (c.username = rustTrim (input.headD "") ∧
        c.bus.rxPos.length = bus0.rxPos.length ∧
        c.phase ≠ Phase.panicked PanicReason.sendErr ∧
        (∃ rest, c.published = joinMsg (rustTrim (input.headD "")) tsJoin :: rest ∧
          ∀ m ∈ rest, isJoin m = false) ∧
        (c.phase = Phase.active → ∀ m ∈ c.published, isLeave m = false) ∧
        (c.phase = Phase.done → ∃ front ts,
          c.published = front ++ [leaveMsg (rustTrim (input.headD "")) ts] ∧
          ∀ m ∈ front, isLeave m = false)) →
      ((step c e).username = rustTrim (input.headD "") ∧
        (step c e).bus.rxPos.length = bus0.rxPos.length ∧
        (step c e).phase ≠ Phase.panicked PanicReason.sendErr ∧
        (∃ rest, (step c e).published
            = joinMsg (rustTrim (input.headD "")) tsJoin :: rest ∧
          ∀ m ∈ rest, isJoin m = false) ∧
        ((step c e).phase = Phase.active →
          ∀ m ∈ (step c e).published, isLeave m = false) ∧
        ((step c e).phase = Phase.done → ∃ front ts,
          (step c e).published
              = front ++ [leaveMsg (rustTrim (input.headD "")) ts] ∧
          ∀ m ∈ front, isLeave m = false)) := by
    intro c e hc
    obtain ⟨h1, h2, h3, ⟨rest, hpub, hrest⟩, h5, h6⟩ := hc
    by_cases hph : c.phase = Phase.active
    · have hu := step_username c e
      have hl := step_rxLen c e
      rcases step_shape c e hph with ⟨hpa, hpp⟩ | ⟨hpd, ts2, hpp⟩
        | ⟨hps, hpp, hzero⟩ | ⟨hpx, hpp⟩
      · refine ⟨hu.trans h1, hl.trans h2, by rw [hpa]; simp, ?_, ?_, ?_⟩
        · rcases hpp with hsame | ⟨ch, ts2, happ⟩
          · exact ⟨rest, hsame.trans hpub, hrest⟩
          · refine ⟨rest
              ++ [ChatMessage.mk c.username (rustTrim ch) ts2
                    MessageType.UserMessage], ?_, ?_⟩
            · rw [happ, hpub]
              simp
            · intro m hm
              rcases List.mem_append.mp hm with hm1 | hm1
              · exact hrest m hm1
              · rw [List.mem_singleton.mp hm1]
                exact isJoin_user _ _ _
        · intro _ m hm
          rcases hpp with hsame | ⟨ch, ts2, happ⟩
          · exact h5 hph m (hsame ▸ hm)
          · rw [happ] at hm
            rcases List.mem_append.mp hm with hm1 | hm1
            · exact h5 hph m hm1
            · rw [List.mem_singleton.mp hm1]
              exact isLeave_user _ _ _
        · intro hd
          rw [hpa] at hd
          exact absurd hd (by simp)
      · refine ⟨hu.trans h1, hl.trans h2, by rw [hpd]; simp, ?_, ?_, ?_⟩
        · refine ⟨rest ++ [leaveMsg c.username ts2], ?_, ?_⟩
          · rw [hpp, hpub]
            simp
          · intro m hm
            rcases List.mem_append.mp hm with hm1 | hm1
            · exact hrest m hm1
            · rw [List.mem_singleton.mp hm1]
              exact isJoin_leaveMsg _ _
        · intro ha
          rw [hpd] at ha
          exact absurd ha (by simp)
        · intro _
          refine ⟨c.published, ts2, ?_, h5 hph⟩
          rw [hpp, h1]
      · exfalso
        rw [h2] at hzero
        omega
      · refine ⟨hu.trans h1, hl.trans h2, ?_, ⟨rest, hpp.trans hpub, hrest⟩,
          ?_, ?_⟩
        · rcases hpx with hx | hx <;> rw [hx] <;> simp
        · intro ha
          rcases hpx with hx | hx <;> rw [hx] at ha <;> exact absurd ha (by simp)
        · intro hd
          rcases hpx with hx | hx <;> rw [hx] at hd <;> exact absurd hd (by simp)
    · rw [step_stuck c e hph]
      exact ⟨h1, h2, h3, ⟨rest, hpub, hrest⟩, h5, h6⟩
  have hne : (Conn.mk (rustTrim (input.headD "")) bus0 rxId input.tail writes
      "" [] Phase.active).bus.rxPos.length ≠ 0 := by
    simpa using Nat.pos_iff_ne_zero.mp h
  have hinit : (initConn bus0 rxId input writes tsJoin).username
        = rustTrim (input.headD "") ∧
      (initConn bus0 rxId input writes tsJoin).bus.rxPos.length
        = bus0.rxPos.length ∧
      (initConn bus0 rxId input writes tsJoin).phase
        ≠ Phase.panicked PanicReason.sendErr ∧
      (∃ rest, (initConn bus0 rxId input writes tsJoin).published
          = joinMsg (rustTrim (input.headD "")) tsJoin :: rest ∧
        ∀ m ∈ rest, isJoin m = false) ∧
      ((initConn bus0 rxId input writes tsJoin).phase = Phase.active →
        ∀ m ∈ (initConn bus0 rxId input writes tsJoin).published,
          isLeave m = false) ∧
      ((initConn bus0 rxId input writes tsJoin).phase = Phase.done →
        ∃ front ts, (initConn bus0 rxId input writes tsJoin).published
            = front ++ [leaveMsg (rustTrim (input.headD "")) ts] ∧
          ∀ m ∈ front, isLeave m = false) := by
    unfold initConn
    dsimp only
    rw [publish_pos _ _ hne]
    refine ⟨rfl, rfl, by simp, ⟨[], by simp, by simp⟩, ?_, ?_⟩
    · intro _ m hm
      have hmj : m = joinMsg (rustTrim (input.headD "")) tsJoin := by
        simpa using hm
      rw [hmj]
      exact isLeave_joinMsg _ _
    · intro hd
      exact absurd hd (by simp)
  exact foldl_inv hstep sched (initConn bus0 rxId input writes tsJoin) hinit

theorem listenerStep_stuck (s : ListenerState) (e : AcceptEvent)
    (h : s.terminated = true) : listenerStep s e = s := by
  simp [listenerStep, h]

theorem listenerStep_err (s : ListenerState) (f : Bool) :
    listenerStep s (AcceptEvent.err f) = { s with terminated := true } := by
  unfold listenerStep
  by_cases ht : s.terminated = true
  · rw [if_pos ht]
    cases s
    simp_all
  · rw [if_neg ht]

theorem foldl_listener_stuck (es : List AcceptEvent) :
    ∀ s : ListenerState, s.terminated = true → es.foldl listenerStep s = s := by
  induction es with
  | nil => intro s _; rfl
  | cons e es ih =>
      intro s h
      rw [List.foldl_cons, listenerStep_stuck s e h]
      exact ih s h

theorem listener_inv (es : List AcceptEvent) :
    ∀ s : ListenerState,
      (s.busesCreated = 1 ∧
        ∀ id ∈ s.spawned, id < s.bus.rxPos.length) →
      ((es.foldl listenerStep s).busesCreated = 1 ∧
        ∀ id ∈ (es.foldl listenerStep s).spawned,
          id < (es.foldl listenerStep s).bus.rxPos.length) := by
  induction es with
  | nil => intro s h; exact h
  | cons e es ih =>
      intro s h
      rw [List.foldl_cons]
      refine ih _ ?_
      unfold listenerStep
      by_cases ht : s.terminated = true
      · rw [if_pos ht]
        exact h
      · rw [if_neg ht]
        cases e with
        | err f => exact h
        | conn =>
            refine ⟨h.1, ?_⟩
            intro id hid
            simp only [Bus.subscribe, List.length_append, List.length_cons,
              List.length_nil] at *
            rcases List.mem_append.mp hid with h1 | h1
            · have := h.2 id h1
              omega
            · have : id = s.bus.rxPos.length := by simpa using h1
              omega

/-- C1, counterexample: a session in the Active state whose bus subscription
reports a lag condition (here 101 published payloads, none yet read, against
capacity 100) does not skip forward and remain Active: the unwrap on the recv
result panics and the session is terminated. -/
theorem lag_counterexample :
    (Bus.recvAt (Bus.mk (List.replicate 101 "m") [0]) 0).fst
        = RecvOutcome.lagged 1 ∧
    (step (Conn.mk "A" (Bus.mk (List.replicate 101 "m") [0]) 0 ["x\n"] [] ""
        [] Phase.active) SelEvent.outbound).phase
        = Phase.panicked PanicReason.recvLag ∧
    (step (Conn.mk "A" (Bus.mk (List.replicate 101 "m") [0]) 0 ["x\n"] [] ""
        [] Phase.active) SelEvent.outbound).phase ≠ Phase.active := by
  refine ⟨by decide, by decide, by decide⟩

/-- C1, amended: whenever the bus subscription of a session in the Active
state reports a lag condition, the session does not remain Active; the unwrap
on the recv result panics with the lag error, terminating the session task. -/
theorem lag_panics_session (c : Conn) (n : Nat) (b2 : Bus)
    (hph : c.phase = Phase.active)
    (hr : Bus.recvAt c.bus c.rxId = (RecvOutcome.lagged n, b2)) :
    (step c SelEvent.outbound).phase = Phase.panicked PanicReason.recvLag := by
  unfold step
  rw [hph]
  dsimp only
  unfold deliver
  rw [hr]

/-- C1 witness: the amended statement applied to a concrete lagged session. -/
theorem lag_panics_session_witness :
    (Conn.mk "B" (Bus.mk (List.replicate 102 "p") [1]) 0 [] [] "" []
        Phase.active).phase = Phase.active ∧
    Bus.recvAt (Bus.mk (List.replicate 102 "p") [1]) 0
        = (RecvOutcome.lagged 1, Bus.mk (List.replicate 102 "p") [2]) ∧
    (step (Conn.mk "B" (Bus.mk (List.replicate 102 "p") [1]) 0 [] [] "" []
        Phase.active) SelEvent.outbound).phase
        = Phase.panicked PanicReason.recvLag :=
  ⟨rfl, by decide,
    lag_panics_session
      (Conn.mk "B" (Bus.mk (List.replicate 102 "p") [1]) 0 [] [] "" []
        Phase.active)
      1 (Bus.mk (List.replicate 102 "p") [2]) rfl (by decide)⟩

/-- C2, counterexample: a session that completed its handshake and published
a UserMessage hits a write failure on its own socket during outbound
delivery; the unwrap on write_all panics the task and no left-the-chat
envelope is ever published, refuting the write-failure path of the claim. -/
theorem write_failure_no_leave_counterexample :
    (handle_connection (Bus.mk [] [0]) 0 ["A\n", "x\n"] [false] "t0"
        [SelEvent.inbound "t1", SelEvent.outbound]).phase
      = Phase.panicked PanicReason.writeErr ∧
    (∃ m, m ∈ (handle_connection (Bus.mk [] [0]) 0 ["A\n", "x\n"] [false] "t0"
        [SelEvent.inbound "t1", SelEvent.outbound]).published ∧
      m.message_type = MessageType.UserMessage) ∧
    ∀ m ∈ (handle_connection (Bus.mk [] [0]) 0 ["A\n", "x\n"] [false] "t0"
        [SelEvent.inbound "t1", SelEvent.outbound]).published,
      isLeave m = false := by
  refine ⟨by decide, ?_, by decide⟩
  exact ⟨ChatMessage.mk "A" "x" "t1" MessageType.UserMessage, by decide, rfl⟩

/-- C2, amended: for every session that completes its handshake and whose run
ends through the inbound EOF path (the only path on which the code reaches
the leave publication), exactly one left-the-chat envelope carrying the
stored identity is published, and it is the final published envelope, hence
after the last UserMessage; a run terminated by a panic publishes none. -/
theorem leave_published_on_eof (bus0 : Bus) (rxId : Nat) (input : List String)
    (writes : List Bool) (tsJoin : String) (sched : List SelEvent)
    (h : 0 < bus0.rxPos.length)
    (hdone : (handle_connection bus0 rxId input writes tsJoin sched).phase
      = Phase.done) :
    ∃ front ts,
      (handle_connection bus0 rxId input writes tsJoin sched).published
          = front ++ [leaveMsg (rustTrim (input.headD "")) ts] ∧
      ∀ m ∈ front, isLeave m = false :=
  (run_inv bus0 rxId input writes tsJoin sched h).2.2.2.2.2 hdone

/-- C2 witness: a client that disconnects abruptly mid-line still gets its
partial line published and then exactly one final leave envelope. -/
theorem leave_published_on_eof_witness :
    0 < (Bus.mk [] [0]).rxPos.length ∧
    (handle_connection (Bus.mk [] [0]) 0 ["Alice\n", "hi the"] [] "t0"
        [SelEvent.inbound "t1", SelEvent.inbound "t2"]).phase = Phase.done ∧
    ∃ front ts,
      (handle_connection (Bus.mk [] [0]) 0 ["Alice\n", "hi the"] [] "t0"
          [SelEvent.inbound "t1", SelEvent.inbound "t2"]).published
          = front ++ [leaveMsg (rustTrim (["Alice\n", "hi the"].headD "")) ts] ∧
      ∀ m ∈ front, isLeave m = false :=
  ⟨by decide, by decide,
    leave_published_on_eof (Bus.mk [] [0]) 0 ["Alice\n", "hi the"] [] "t0"
      [SelEvent.inbound "t1", SelEvent.inbound "t2"] (by decide) (by decide)⟩

/-- C3, counterexample: a single failed accept whose error is not fatal to
the listening socket (the flag the code never inspects is false) terminates
the listener loop, and the next incoming connection is never accepted: no
session is spawned for it. -/
theorem accept_error_counterexample :
    (runListener [AcceptEvent.err false, AcceptEvent.conn]).terminated
        = true ∧
    (runListener [AcceptEvent.err false, AcceptEvent.conn]).spawned = [] := by
  refine ⟨by decide, by decide⟩

/-- C3, amended: every accept failure, fatal to the listening socket or not,
terminates the listener loop via the question-mark propagation out of main,
and no connection arriving after it is ever accepted. -/
theorem accept_error_terminates_loop (pre post : List AcceptEvent) (f : Bool) :
    (runListener (pre ++ AcceptEvent.err f :: post)).terminated = true ∧
    (runListener (pre ++ AcceptEvent.err f :: post)).spawned
        = (runListener pre).spawned := by
  unfold runListener
  rw [List.foldl_append, List.foldl_cons, listenerStep_err,
    foldl_listener_stuck post _ rfl]
  exact ⟨rfl, rfl⟩

/-- C3 witness: the amended statement applied to a concrete accept trace. -/
theorem accept_error_terminates_loop_witness :
    (runListener ([AcceptEvent.conn] ++ AcceptEvent.err false
        :: [AcceptEvent.conn])).terminated = true ∧
    (runListener ([AcceptEvent.conn] ++ AcceptEvent.err false
        :: [AcceptEvent.conn])).spawned
      = (runListener [AcceptEvent.conn]).spawned :=
  accept_error_terminates_loop [AcceptEvent.conn] [AcceptEvent.conn] false

/-- C4, counterexample: at a publish call made with zero subscribers, the
send error is not logged and ignored: the unwrap panics the session task, so
the session does not continue operating. -/
theorem send_error_panics_counterexample :
    (Bus.send (Bus.mk [] []) "payload").fst = false ∧
    (step (Conn.mk "A" (Bus.mk [] []) 0 ["hi\n"] [] "" [] Phase.active)
        (SelEvent.inbound "t1")).phase = Phase.panicked PanicReason.sendErr ∧
    (step (Conn.mk "A" (Bus.mk [] []) 0 ["hi\n"] [] "" [] Phase.active)
        (SelEvent.inbound "t1")).phase ≠ Phase.active := by
  refine ⟨by decide, by decide, by decide⟩

/-- C4, amended: a publish by a wired session never fails for lack of
subscribers, because the session obtained its own bus receiver at accept time
and holds it for the whole run; hence the panic on the send unwrap never
fires, and no session ends through the no-subscribers error. -/
theorem session_publish_never_fails (b : Bus) (input : List String)
    (writes : List Bool) (tsJoin : String) (sched : List SelEvent) :
    (handle_connection (Bus.subscribe b).fst (Bus.subscribe b).snd input
        writes tsJoin sched).phase ≠ Phase.panicked PanicReason.sendErr := by
  have h0 : 0 < ((Bus.subscribe b).fst).rxPos.length := by
    simp [Bus.subscribe]
  exact (run_inv (Bus.subscribe b).fst (Bus.subscribe b).snd input writes
    tsJoin sched h0).2.2.1

/-- C4 witness: the amended statement applied to a concrete session run. -/
theorem session_publish_never_fails_witness :
    (handle_connection (Bus.subscribe (Bus.mk [] [])).fst
        (Bus.subscribe (Bus.mk [] [])).snd ["A\n", "x\n"] [] "t0"
        [SelEvent.inbound "t1"]).phase
      ≠ Phase.panicked PanicReason.sendErr :=
  session_publish_never_fails (Bus.mk [] []) ["A\n", "x\n"] [] "t0"
    [SelEvent.inbound "t1"]

/-- C5: the handshake consumes exactly the first line and trims it into the
session identity, and the next inbound line becomes a UserMessage whose body
is that line trimmed. -/
theorem handshake_framing (first c2 : String) (rest : List String)
    (bus0 : Bus) (rxId : Nat) (writes : List Bool) (tsJoin ts : String)
    (h : 0 < bus0.rxPos.length) (hc : c2.isEmpty = false) :
    (handle_connection bus0 rxId (first :: c2 :: rest) writes tsJoin
        [SelEvent.inbound ts]).username = rustTrim first ∧
    (handle_connection bus0 rxId (first :: c2 :: rest) writes tsJoin
        [SelEvent.inbound ts]).published
      = [joinMsg (rustTrim first) tsJoin,
         ChatMessage.mk (rustTrim first) (rustTrim c2) ts
           MessageType.UserMessage] := by
  have hne : bus0.rxPos.length ≠ 0 := Nat.pos_iff_ne_zero.mp h
  unfold handle_connection
  rw [List.foldl_cons, List.foldl_nil]
  unfold initConn
  dsimp only [List.headD, List.tail]
  rw [publish_pos _ _ hne]
  unfold step
  dsimp only
  rw [if_neg (by simp [hc])]
  rw [publish_pos _ _ hne]
  exact ⟨rfl, by simp⟩

/-- C5 witness: with input lines Alice and hi there, the identity is exactly
Alice and the UserMessage body is exactly hi there. -/
theorem handshake_framing_witness :
    0 < (Bus.mk [] [0]).rxPos.length ∧
    ("hi there\n" : String).isEmpty = false ∧
    (handle_connection (Bus.mk [] [0]) 0 ["Alice\n", "hi there\n"] [] "t0"
        [SelEvent.inbound "t1"]).username = "Alice" ∧
    (handle_connection (Bus.mk [] [0]) 0 ["Alice\n", "hi there\n"] [] "t0"
        [SelEvent.inbound "t1"]).published
      = [joinMsg "Alice" "t0",
         ChatMessage.mk "Alice" "hi there" "t1" MessageType.UserMessage] := by
  refine ⟨by decide, by decide, ?_, ?_⟩
  · exact (handshake_framing "Alice\n" "hi there\n" [] (Bus.mk [] [0]) 0 []
      "t0" "t1" (by decide) (by decide)).1.trans (by decide)
  · exact (handshake_framing "Alice\n" "hi there\n" [] (Bus.mk [] [0]) 0 []
      "t0" "t1" (by decide) (by decide)).2.trans (by decide)

/-- C6: on completion of the handshake exactly one joined-the-chat system
envelope with the session identity as sender is published, as the very first
envelope this session publishes, hence before every UserMessage from it. -/
theorem join_bracketing (bus0 : Bus) (rxId : Nat) (input : List String)
    (writes : List Bool) (tsJoin : String) (sched : List SelEvent)
    (h : 0 < bus0.rxPos.length) :
    (handle_connection bus0 rxId input writes tsJoin sched).username
        = rustTrim (input.headD "") ∧
    ∃ rest,
      (handle_connection bus0 rxId input writes tsJoin sched).published
          = joinMsg (rustTrim (input.headD "")) tsJoin :: rest ∧
      ∀ m ∈ rest, isJoin m = false :=
  ⟨(run_inv bus0 rxId input writes tsJoin sched h).1,
   (run_inv bus0 rxId input writes tsJoin sched h).2.2.2.1⟩

/-- C6 witness: the bracketing applied to a concrete two-message session. -/
theorem join_bracketing_witness :
    0 < (Bus.mk [] [0]).rxPos.length ∧
    ((handle_connection (Bus.mk [] [0]) 0 ["Bob\n", "yo\n"] [] "t0"
        [SelEvent.inbound "t1"]).username
        = rustTrim (["Bob\n", "yo\n"].headD "") ∧
      ∃ rest,
        (handle_connection (Bus.mk [] [0]) 0 ["Bob\n", "yo\n"] [] "t0"
            [SelEvent.inbound "t1"]).published
            = joinMsg (rustTrim (["Bob\n", "yo\n"].headD "")) "t0" :: rest ∧
        ∀ m ∈ rest, isJoin m = false) :=
  ⟨by decide,
    join_bracketing (Bus.mk [] [0]) 0 ["Bob\n", "yo\n"] [] "t0"
      [SelEvent.inbound "t1"] (by decide)⟩

/-- C7: the broadcast channel is created exactly once at process start with
fixed capacity 100, the accept loop never creates another, and every spawned
session is wired to a receiver registered on that single channel. -/
theorem single_shared_bus (es : List AcceptEvent) :
    busCapacity = 100 ∧
    (runListener es).busesCreated = 1 ∧
    ∀ id ∈ (runListener es).spawned,
      id < (runListener es).bus.rxPos.length := by
  have h := listener_inv es listenerInit ⟨rfl, by simp [listenerInit]⟩
  exact ⟨rfl, h.1, h.2⟩

/-- C7 witness: after two accepted connections both sessions hold receivers
registered on the one channel. -/
theorem single_shared_bus_witness :
    0 ∈ (runListener [AcceptEvent.conn, AcceptEvent.conn]).spawned ∧
    0 < (runListener [AcceptEvent.conn, AcceptEvent.conn]).bus.rxPos.length :=
  ⟨by decide,
    (single_shared_bus [AcceptEvent.conn, AcceptEvent.conn]).2.2 0 (by decide)⟩

set_option maxHeartbeats 2000000 in
/-- C8: a session is itself a subscriber of the bus and receives its own
publications back: after publishing hello, the bytes written to its own
client socket contain the encoded envelope for hello from itself. -/
theorem self_delivery (nameLine tsJoin ts : String) :
    (handle_connection (Bus.mk [] [0]) 0 [nameLine, "hello\n"] [] tsJoin
        [SelEvent.inbound ts, SelEvent.outbound, SelEvent.outbound]).published
      = [joinMsg (rustTrim nameLine) tsJoin,
         ChatMessage.mk (rustTrim nameLine) "hello" ts
           MessageType.UserMessage] ∧
    ∃ pre post,
      (handle_connection (Bus.mk [] [0]) 0 [nameLine, "hello\n"] [] tsJoin
          [SelEvent.inbound ts, SelEvent.outbound, SelEvent.outbound]).output
        = pre
          ++ ChatMessage.toJson (ChatMessage.mk (rustTrim nameLine) "hello"
              ts MessageType.UserMessage)
          ++ post :=
  ⟨rfl,
   ChatMessage.toJson (joinMsg (rustTrim nameLine) tsJoin) ++ "\n", "\n", rfl⟩

/-- C8 witness: the self-delivery statement applied to a concrete user. -/
theorem self_delivery_witness :
    (handle_connection (Bus.mk [] [0]) 0 ["Ann\n", "hello\n"] [] "t0"
        [SelEvent.inbound "t1", SelEvent.outbound, SelEvent.outbound]).published
      = [joinMsg (rustTrim "Ann\n") "t0",
         ChatMessage.mk (rustTrim "Ann\n") "hello" "t1"
           MessageType.UserMessage] ∧
    ∃ pre post,
      (handle_connection (Bus.mk [] [0]) 0 ["Ann\n", "hello\n"] [] "t0"
          [SelEvent.inbound "t1", SelEvent.outbound, SelEvent.outbound]).output
        = pre
          ++ ChatMessage.toJson (ChatMessage.mk (rustTrim "Ann\n") "hello"
              "t1" MessageType.UserMessage)
          ++ post :=
  self_delivery "Ann\n" "t0" "t1"

/-- C9: a bus delivery received in the Active state is written to the client
socket verbatim followed by exactly one line terminator, with no re-encoding,
no change to the published trace and no change to the bus log. -/
theorem delivery_verbatim (c : Conn) (msg : String) (b2 : Bus)
    (hph : c.phase = Phase.active)
    (hr : Bus.recvAt c.bus c.rxId = (RecvOutcome.ok msg, b2))
    (hw : c.writes = []) :
    (step c SelEvent.outbound).output = c.output ++ msg ++ "\n" ∧
    (step c SelEvent.outbound).phase = Phase.active ∧
    (step c SelEvent.outbound).published = c.published ∧
    (step c SelEvent.outbound).bus.log = c.bus.log := by
  have hlog : b2.log = c.bus.log := by
    have h2 : ((Bus.recvAt c.bus c.rxId).snd).log = c.bus.log := by
      unfold Bus.recvAt
      dsimp only
      split
      · rfl
      · split <;> rfl
    rw [hr] at h2
    exact h2
  unfold step
  rw [hph]
  dsimp only
  unfold deliver
  rw [hr]
  dsimp only
  rw [popWrite_eq]
  dsimp only
  rw [hw]
  dsimp only [List.headD, List.tail]
  rw [if_pos rfl, popWrite_eq]
  dsimp only
  exact ⟨rfl, hph, rfl, hlog⟩

/-- C9 witness: the verbatim delivery applied to a concrete session state. -/
theorem delivery_verbatim_witness :
    (Conn.mk "A" (Bus.mk ["payload"] [0]) 0 [] [] "before" []
        Phase.active).phase = Phase.active ∧
    Bus.recvAt (Bus.mk ["payload"] [0]) 0
        = (RecvOutcome.ok "payload", Bus.mk ["payload"] [1]) ∧
    (step (Conn.mk "A" (Bus.mk ["payload"] [0]) 0 [] [] "before" []
        Phase.active) SelEvent.outbound).output
        = "before" ++ "payload" ++ "\n" :=
  ⟨rfl, by decide,
    (delivery_verbatim
      (Conn.mk "A" (Bus.mk ["payload"] [0]) 0 [] [] "before" [] Phase.active)
      "payload" (Bus.mk ["payload"] [1]) rfl (by decide) rfl).1⟩

/-- C10: a session spawned as in main, with its own receiver subscribed at
accept time and held for the whole run, keeps the subscriber count of the
channel at least one at every moment, so the no-receivers error branch of
publish is unreachable and its panic never fires for that reason. -/
theorem own_subscription_keeps_publish_safe (b : Bus) (input : List String)
    (writes : List Bool) (tsJoin : String) (sched : List SelEvent) :
    (handle_connection (Bus.subscribe b).fst (Bus.subscribe b).snd input
        writes tsJoin sched).bus.rxPos.length = b.rxPos.length + 1 ∧
    0 < (handle_connection (Bus.subscribe b).fst (Bus.subscribe b).snd input
        writes tsJoin sched).bus.rxPos.length ∧
    (handle_connection (Bus.subscribe b).fst (Bus.subscribe b).snd input
        writes tsJoin sched).phase ≠ Phase.panicked PanicReason.sendErr := by
  have h0 : 0 < ((Bus.subscribe b).fst).rxPos.length := by
    simp [Bus.subscribe]
  have hr := run_inv (Bus.subscribe b).fst (Bus.subscribe b).snd input writes
    tsJoin sched h0
  have hlen : ((Bus.subscribe b).fst).rxPos.length = b.rxPos.length + 1 := by
    simp [Bus.subscribe]
  exact ⟨hr.2.1.trans hlen, by rw [hr.2.1]; exact h0, hr.2.2.1⟩

/-- C10 witness: the subscriber-count statement applied to a concrete run. -/
theorem own_subscription_keeps_publish_safe_witness :
    (handle_connection (Bus.subscribe (Bus.mk [] [])).fst
        (Bus.subscribe (Bus.mk [] [])).snd ["Eve\n", "z\n"] [] "t0"
        [SelEvent.inbound "t1", SelEvent.outbound]).bus.rxPos.length
      = (Bus.mk ([] : List String) ([] : List Nat)).rxPos.length + 1 ∧
    0 < (handle_connection (Bus.subscribe (Bus.mk [] [])).fst
        (Bus.subscribe (Bus.mk [] [])).snd ["Eve\n", "z\n"] [] "t0"
        [SelEvent.inbound "t1", SelEvent.outbound]).bus.rxPos.length ∧
    (handle_connection (Bus.subscribe (Bus.mk [] [])).fst
        (Bus.subscribe (Bus.mk [] [])).snd ["Eve\n", "z\n"] [] "t0"
        [SelEvent.inbound "t1", SelEvent.outbound]).phase
      ≠ Phase.panicked PanicReason.sendErr :=
  own_subscription_keeps_publish_safe (Bus.mk [] []) ["Eve\n", "z\n"] [] "t0"
    [SelEvent.inbound "t1", SelEvent.outbound]

end RetroChat
